import Mathlib

/-!
Shallow embedding of the year-by-year projection engine in
`src/lib/debtProEngine.ts` of fintoolbox/debtpro.

JavaScript `number` arithmetic is modelled over `ℚ`: the engine only uses
addition, subtraction, multiplication, `min`/`max` and comparisons, so every
operation performed on finite inputs is exact.  The `for` loop of
`runDebtProSimulation` is embedded as structural recursion on the remaining
iteration count, with the `break` on `homeLoanBalance <= 0.01` mirrored by an
early cut-off.  `projectionYears` is modelled as `ℤ` (the loop runs while
`yearIndex < projectionYears`, hence `projectionYears.toNat` iterations).
-/

namespace DebtPro

/-- The `BaseInputs` record of `debtProEngine.ts`. -/
structure BaseInputs where
  propertyValueHome : ℚ
  homeLoanBalance : ℚ
  homeLoanRate : ℚ
  minRepaymentMonthly : ℚ
  marginalTaxRate : ℚ
  netIncomeAnnual : ℚ
  livingExpensesAnnualExMortgage : ℚ
  offsetBalance : ℚ
  emergencyFundTarget : ℚ
  deriving DecidableEq

/-- The `TipInputs` record of `debtProEngine.ts`. -/
structure TipInputs where
  tip1_extraSavingsPerMonth : ℚ
  tip4_salaryGrowthRate : ℚ
  tip5_purchaseYear : ℚ
  tip5_purchasePrice : ℚ
  tip5_purchaseCostsRate : ℚ
  tip5_rentAnnual : ℚ
  tip5_expensesAnnual : ℚ
  tip5_ipLoanRate : ℚ
  tip6_recyclePerYear : ℚ
  tip6_investReturn : ℚ
  tip6_dividendYield : ℚ
  deriving DecidableEq

/-- The `Assumptions` record of `debtProEngine.ts`. -/
structure Assumptions where
  projectionYears : ℤ
  homeGrowthRate : ℚ
  ipGrowthRate : ℚ
  effectiveCgtRate : ℚ
  deriving DecidableEq

/-- The optional `customAssumptions?: Partial<Assumptions>` parameter: each
field may be overridden independently. -/
structure CustomAssumptions where
  projectionYears : Option ℤ
  homeGrowthRate : Option ℚ
  ipGrowthRate : Option ℚ
  effectiveCgtRate : Option ℚ
  deriving DecidableEq

/-- The `DEFAULT_ASSUMPTIONS` constant of `debtProEngine.ts`. -/
def DEFAULT_ASSUMPTIONS : Assumptions :=
  { projectionYears := 30
    homeGrowthRate := 0.03
    ipGrowthRate := 0.03
    effectiveCgtRate := 0.10 }

/-- The spread `{ ...DEFAULT_ASSUMPTIONS, ...customAssumptions }`. -/
def mergeAssumptions (c : CustomAssumptions) : Assumptions :=
  { projectionYears := c.projectionYears.getD DEFAULT_ASSUMPTIONS.projectionYears
    homeGrowthRate := c.homeGrowthRate.getD DEFAULT_ASSUMPTIONS.homeGrowthRate
    ipGrowthRate := c.ipGrowthRate.getD DEFAULT_ASSUMPTIONS.ipGrowthRate
    effectiveCgtRate := c.effectiveCgtRate.getD DEFAULT_ASSUMPTIONS.effectiveCgtRate }

/-- The `YearState` record of `debtProEngine.ts`: the snapshot of a single year. -/
structure YearState where
  yearIndex : ℕ
  netIncome : ℚ
  livingExpenses : ℚ
  homeLoanInterest : ℚ
  homeLoanRepayments : ℚ
  ipRent : ℚ
  ipExpenses : ℚ
  ipInterest : ℚ
  investIncome : ℚ
  taxEffectNet : ℚ
  totalIncome : ℚ
  totalExpenses : ℚ
  surplusCashflow : ℚ
  homeValue : ℚ
  ipValue : ℚ
  investPortfolioValue : ℚ
  offsetBalance : ℚ
  homeLoanBalance : ℚ
  ipLoanBalance : ℚ
  investmentLoanBalance : ℚ
  totalAssets : ℚ
  totalLiabilities : ℚ
  netWorth : ℚ
  couldClearHomeLoan : Bool
  totalAvailableIfSold : ℚ
  deriving DecidableEq

/-- The `SimulationResult` record of `debtProEngine.ts`. -/
structure SimulationResult where
  years : List YearState
  debtFreeYearIndex : Option ℕ
  deriving DecidableEq

/-- The mutable variables of `runDebtProSimulation` that are carried across
loop iterations (`netIncome` … `investmentLoanBalance` in the source). -/
structure RunState where
  netIncome : ℚ
  livingExpenses : ℚ
  homeValue : ℚ
  homeLoanBalance : ℚ
  offsetBalance : ℚ
  ipValue : ℚ
  ipLoanBalance : ℚ
  hasPurchasedIP : Bool
  investPortfolioValue : ℚ
  investmentLoanBalance : ℚ
  deriving DecidableEq

/-- The initial values of the running state, from `BaseInputs`. -/
def initialState (base : BaseInputs) : RunState :=
  { netIncome := base.netIncomeAnnual
    livingExpenses := base.livingExpensesAnnualExMortgage
    homeValue := base.propertyValueHome
    homeLoanBalance := base.homeLoanBalance
    offsetBalance := base.offsetBalance
    ipValue := 0
    ipLoanBalance := 0
    hasPurchasedIP := false
    investPortfolioValue := 0
    investmentLoanBalance := 0 }

/-- One iteration of the `for` loop of `runDebtProSimulation` (stages 3.1 to
3.11 of the source): produces the pushed `YearState` snapshot and the updated
running state. -/
def simYear (base : BaseInputs) (tips : TipInputs) (a : Assumptions)
    (yearIndex : ℕ) (s : RunState) : YearState × RunState :=
  -- 3.1 update home value
  let homeValue :=
    if 0 < yearIndex then s.homeValue * (1 + a.homeGrowthRate) else s.homeValue
  -- 3.2 tip 4: salary growth
  let netIncome :=
    if 0 < yearIndex ∧ 0 < tips.tip4_salaryGrowthRate then
      s.netIncome * (1 + tips.tip4_salaryGrowthRate)
    else s.netIncome
  let extraIncomeToMortgage :=
    if 0 < yearIndex ∧ 0 < tips.tip4_salaryGrowthRate then
      0.5 * (netIncome - s.netIncome)
    else 0
  -- 3.3 tips 1 + 3 + 4: annual home loan repayments
  let baseMonthlyRepayment := base.minRepaymentMonthly + tips.tip1_extraSavingsPerMonth
  let annualHomeLoanRepayments := baseMonthlyRepayment * 13 + extraIncomeToMortgage
  -- 3.4 home loan interest and principal
  let effectiveHomeDebt :=
    max 0 (s.homeLoanBalance - max 0 (s.offsetBalance - base.emergencyFundTarget))
  let homeLoanInterest := effectiveHomeDebt * base.homeLoanRate
  let principalPaid := annualHomeLoanRepayments - homeLoanInterest
  let homeLoanBalance :=
    if principalPaid < 0 then s.homeLoanBalance + homeLoanInterest
    else max 0 (s.homeLoanBalance - principalPaid)
  -- 3.5 investment property (tip 5)
  let purchaseNow : Bool :=
    !s.hasPurchasedIP && decide (0 < tips.tip5_purchasePrice) &&
      decide (0.3 * tips.tip5_purchasePrice ≤ max 0 (homeValue * 0.8 - homeLoanBalance))
  let hasPurchasedIP := s.hasPurchasedIP || purchaseNow
  let ipValuePrePurchaseGrowth := if purchaseNow then tips.tip5_purchasePrice else s.ipValue
  let ipLoanBalance :=
    if purchaseNow then
      tips.tip5_purchasePrice + tips.tip5_purchasePrice * tips.tip5_purchaseCostsRate
    else s.ipLoanBalance
  let ipValue :=
    if hasPurchasedIP then ipValuePrePurchaseGrowth * (1 + a.ipGrowthRate)
    else ipValuePrePurchaseGrowth
  let ipRent := if hasPurchasedIP then tips.tip5_rentAnnual else 0
  let ipExpenses := if hasPurchasedIP then tips.tip5_expensesAnnual else 0
  let ipInterest := if hasPurchasedIP then ipLoanBalance * tips.tip5_ipLoanRate else 0
  -- 3.6 debt recycling and portfolio (tip 6)
  let investContributions :=
    if 0 < tips.tip6_recyclePerYear ∧ 0 < homeLoanBalance ∧ hasPurchasedIP then
      min tips.tip6_recyclePerYear homeLoanBalance
    else 0
  let investmentLoanBalance := s.investmentLoanBalance + investContributions
  let investPortfolioPreReturns := s.investPortfolioValue + investContributions
  let investIncome :=
    if 0 < investPortfolioPreReturns then
      investPortfolioPreReturns * tips.tip6_dividendYield
    else 0
  let investPortfolioValue :=
    if 0 < investPortfolioPreReturns then
      investPortfolioPreReturns + investPortfolioPreReturns * tips.tip6_dividendYield
        + investPortfolioPreReturns * (tips.tip6_investReturn - tips.tip6_dividendYield)
    else investPortfolioPreReturns
  let debtRecyclingInterest :=
    if 0 < investmentLoanBalance ∧ 0 < tips.tip6_investReturn then
      investmentLoanBalance * base.homeLoanRate
    else 0
  -- 3.7 tax effects
  let ipNetBeforeTax := ipRent - ipExpenses - ipInterest
  let taxEffectIP :=
    if ipNetBeforeTax < 0 then -ipNetBeforeTax * base.marginalTaxRate
    else if 0 < ipNetBeforeTax then -ipNetBeforeTax * base.marginalTaxRate
    else 0
  let investNetBeforeTax := investIncome - debtRecyclingInterest
  let taxEffectInvest :=
    if investNetBeforeTax < 0 then -investNetBeforeTax * base.marginalTaxRate
    else if 0 < investNetBeforeTax then -investNetBeforeTax * base.marginalTaxRate
    else 0
  let taxEffectNet := taxEffectIP + taxEffectInvest
  -- 3.8 cashflow summary
  let totalIncome := netIncome + ipRent + investIncome + max 0 taxEffectNet
  let totalExpenses :=
    s.livingExpenses + annualHomeLoanRepayments + ipExpenses + ipInterest
      + max 0 (-taxEffectNet)
  let surplusCashflow := totalIncome - totalExpenses
  -- 3.9 assets and liabilities
  let totalAssets := homeValue + ipValue + investPortfolioValue + s.offsetBalance
  let totalLiabilities := homeLoanBalance + ipLoanBalance + investmentLoanBalance
  let netWorth := totalAssets - totalLiabilities
  -- 3.10 liquidation test
  let portfolioAfterCGT :=
    if 0 < investPortfolioValue then investPortfolioValue * (1 - a.effectiveCgtRate)
    else 0
  let ipNetSaleProceeds :=
    if 0 < ipValue then max 0 (ipValue * (1 - 0.03) - ipLoanBalance) else 0
  let totalAvailableIfSold := ipNetSaleProceeds + portfolioAfterCGT
  let couldClearHomeLoan : Bool :=
    decide (0 < homeLoanBalance) && decide (homeLoanBalance ≤ totalAvailableIfSold)
  (⟨yearIndex, netIncome, s.livingExpenses, homeLoanInterest, annualHomeLoanRepayments,
      ipRent, ipExpenses, ipInterest, investIncome, taxEffectNet, totalIncome,
      totalExpenses, surplusCashflow, homeValue, ipValue, investPortfolioValue,
      s.offsetBalance, homeLoanBalance, ipLoanBalance, investmentLoanBalance,
      totalAssets, totalLiabilities, netWorth, couldClearHomeLoan, totalAvailableIfSold⟩,
    ⟨netIncome, s.livingExpenses, homeValue, homeLoanBalance, s.offsetBalance,
      ipValue, ipLoanBalance, hasPurchasedIP, investPortfolioValue, investmentLoanBalance⟩)

/-- The loop of `runDebtProSimulation`, by recursion on the number of
remaining iterations: returns the list of pushed snapshots together with the
`debtFreeYearIndex` (first `yearIndex` whose snapshot has
`couldClearHomeLoan`).  After pushing a snapshot the loop stops early when
`homeLoanBalance <= 0.01`. -/
def simLoop (base : BaseInputs) (tips : TipInputs) (a : Assumptions) :
    ℕ → ℕ → RunState → List YearState × Option ℕ
  | 0, _, _ => ([], none)
  | fuel + 1, yearIndex, s =>
    let p := simYear base tips a yearIndex s
    let rest :=
      if p.1.homeLoanBalance ≤ 0.01 then (([] : List YearState), (none : Option ℕ))
      else simLoop base tips a fuel (yearIndex + 1) p.2
    (p.1 :: rest.1, if p.1.couldClearHomeLoan then some yearIndex else rest.2)

/-- The `runDebtProSimulation` function of `debtProEngine.ts`. -/
def runDebtProSimulation (base : BaseInputs) (tips : TipInputs)
    (customAssumptions : CustomAssumptions) : SimulationResult :=
  let a := mergeAssumptions customAssumptions
  let r := simLoop base tips a a.projectionYears.toNat 0 (initialState base)
  { years := r.1, debtFreeYearIndex := r.2 }

/-- The running state at the start of the year `k + n`, when the loop is
entered at year `k` with state `s` (pure iteration of `simYear`, ignoring the
early exit; used only to reason about the loop). -/
def iterState (base : BaseInputs) (tips : TipInputs) (a : Assumptions) :
    ℕ → ℕ → RunState → RunState
  | 0, _, s => s
  | n + 1, k, s => iterState base tips a n (k + 1) (simYear base tips a k s).2

/-- The mortgage-stage contract of spec section 4.3 for one simulated year,
relating a snapshot to the previous year's net income and home loan balance:
total repayment, effective-debt interest and the balance update rule. -/
def mortgageSpec (base : BaseInputs) (tips : TipInputs)
    (prevIncome prevBalance : ℚ) (y : YearState) : Prop :=
  y.homeLoanRepayments =
      (base.minRepaymentMonthly + tips.tip1_extraSavingsPerMonth) * 13
        + 0.5 * (y.netIncome - prevIncome) ∧
  y.homeLoanInterest =
      max 0 (prevBalance - max 0 (base.offsetBalance - base.emergencyFundTarget))
        * base.homeLoanRate ∧
  y.homeLoanBalance =
      if y.homeLoanRepayments < y.homeLoanInterest then
        prevBalance + y.homeLoanInterest
      else max 0 (prevBalance - (y.homeLoanRepayments - y.homeLoanInterest))

/-- All monetary and rate fields of `BaseInputs` are nonnegative (the data
model invariant of spec section 3). -/
def BaseInputsNonneg (b : BaseInputs) : Prop :=
  0 ≤ b.propertyValueHome ∧ 0 ≤ b.homeLoanBalance ∧ 0 ≤ b.homeLoanRate ∧
  0 ≤ b.minRepaymentMonthly ∧ 0 ≤ b.marginalTaxRate ∧ 0 ≤ b.netIncomeAnnual ∧
  0 ≤ b.livingExpensesAnnualExMortgage ∧ 0 ≤ b.offsetBalance ∧
  0 ≤ b.emergencyFundTarget

/-- All fields of `TipInputs` are nonnegative. -/
def TipInputsNonneg (t : TipInputs) : Prop :=
  0 ≤ t.tip1_extraSavingsPerMonth ∧ 0 ≤ t.tip4_salaryGrowthRate ∧
  0 ≤ t.tip5_purchaseYear ∧ 0 ≤ t.tip5_purchasePrice ∧
  0 ≤ t.tip5_purchaseCostsRate ∧ 0 ≤ t.tip5_rentAnnual ∧
  0 ≤ t.tip5_expensesAnnual ∧ 0 ≤ t.tip5_ipLoanRate ∧
  0 ≤ t.tip6_recyclePerYear ∧ 0 ≤ t.tip6_investReturn ∧ 0 ≤ t.tip6_dividendYield

/-- The rate fields of `Assumptions` are nonnegative. -/
def AssumptionsNonneg (a : Assumptions) : Prop :=
  0 ≤ a.homeGrowthRate ∧ 0 ≤ a.ipGrowthRate ∧ 0 ≤ a.effectiveCgtRate

/-- No overridden assumption: `runDebtProSimulation` uses the defaults. -/
def noOverrides : CustomAssumptions := ⟨none, none, none, none⟩

/-- Override making `projectionYears` negative. -/
def negYearsOverride : CustomAssumptions := ⟨some (-1), none, none, none⟩

/-- All-zero base inputs (used to instantiate universally quantified claims
at a concrete input). -/
def zBase : BaseInputs := ⟨0, 0, 0, 0, 0, 0, 0, 0, 0⟩

/-- All-zero strategy inputs. -/
def zTips : TipInputs := ⟨0, 0, 0, 0, 0, 0, 0, 0, 0, 0, 0⟩

/-- All-zero base inputs except an offset balance of 7. -/
def oBase : BaseInputs := ⟨0, 0, 0, 0, 0, 0, 0, 7, 0⟩

/-- All-zero base inputs except a minimum monthly repayment of 1. -/
def wBase : BaseInputs := ⟨0, 0, 0, 1, 0, 0, 0, 0, 0⟩

/-- Base inputs of the concrete scenarios of spec section 8:
`propertyValueHome=900000, homeLoanBalance=600000, homeLoanRate=0.055,
minRepaymentMonthly=3500`, everything else 0. -/
def sbBase : BaseInputs := ⟨900000, 600000, 0.055, 3500, 0, 0, 0, 0, 0⟩

/-- Strategy inputs of scenario B: `tip5_purchasePrice=700000,
tip5_purchaseCostsRate=0.05`, all other fields 0. -/
def sbTips : TipInputs := ⟨0, 0, 0, 700000, 0.05, 0, 0, 0, 0, 0, 0⟩

/-- Strategy inputs of scenario C: scenario B plus `tip6_recyclePerYear=10000`. -/
def scTips : TipInputs := ⟨0, 0, 0, 700000, 0.05, 0, 0, 0, 10000, 0, 0⟩

/- Exact values of the first four simulated years of scenario B (and, where
shared, scenario C).  They are verified against `simYear` by the `sb_step`
lemmas below. -/

/-- Scenario B, snapshot of year 0. -/
def sbY0 : YearState :=
  ⟨0, 0, 0, 33000, 45500, 0, 0, 0, 0, 0, 0, 45500, -45500, 900000, 0, 0, 0,
    587500, 0, 0, 900000, 587500, 312500, false, 0⟩

/-- Scenario B, running state after year 0. -/
def sbS1 : RunState := ⟨0, 0, 900000, 587500, 0, 0, 0, false, 0, 0⟩

/-- Scenario B, snapshot of year 1. -/
def sbY1 : YearState :=
  ⟨1, 0, 0, (64625 : ℚ)/2, 45500, 0, 0, 0, 0, 0, 0, 45500, -45500, 927000, 0, 0, 0,
    (1148625 : ℚ)/2, 0, 0, 927000, (1148625 : ℚ)/2, (705375 : ℚ)/2, false, 0⟩

/-- Scenario B, running state after year 1. -/
def sbS2 : RunState := ⟨0, 0, 927000, (1148625 : ℚ)/2, 0, 0, 0, false, 0, 0⟩

/-- Scenario B, snapshot of year 2. -/
def sbY2 : YearState :=
  ⟨2, 0, 0, (505395 : ℚ)/16, 45500, 0, 0, 0, 0, 0, 0, 45500, -45500, 954810, 0, 0, 0,
    (8966395 : ℚ)/16, 0, 0, 954810, (8966395 : ℚ)/16, (6310565 : ℚ)/16, false, 0⟩

/-- Scenario B, running state after year 2. -/
def sbS3 : RunState := ⟨0, 0, 954810, (8966395 : ℚ)/16, 0, 0, 0, false, 0, 0⟩

/-- Scenario B, snapshot of year 3 (the acquisition year). -/
def sbY3 : YearState :=
  ⟨3, 0, 0, (19726069 : ℚ)/640, 45500, 0, 0, 0, 0, 0, 0, 45500, -45500,
    (9834543 : ℚ)/10, 721000, 0, 0, (349261869 : ℚ)/640, 735000, 0,
    (17044543 : ℚ)/10, (819661869 : ℚ)/640, (271188883 : ℚ)/640, false, 0⟩

/-- Scenario B, running state after year 3. -/
def sbS4 : RunState :=
  ⟨0, 0, (9834543 : ℚ)/10, (349261869 : ℚ)/640, 0, 721000, 735000, true, 0, 0⟩

/-- Scenario C, snapshot of year 3 (the acquisition year; years 0 to 2 equal
scenario B's). -/
def scY3 : YearState :=
  ⟨3, 0, 0, (19726069 : ℚ)/640, 45500, 0, 0, 0, 0, 0, 0, 45500, -45500,
    (9834543 : ℚ)/10, 721000, 10000, 0, (349261869 : ℚ)/640, 735000, 10000,
    (17144543 : ℚ)/10, (826061869 : ℚ)/640, (271188883 : ℚ)/640, false, 9000⟩

/-- Scenario C, running state after year 3. -/
def scS4 : RunState :=
  ⟨0, 0, (9834543 : ℚ)/10, (349261869 : ℚ)/640, 0, 721000, 735000, true, 10000, 10000⟩

/-- Snapshot of year 0 for the all-zero inputs (the run stops after it). -/
def zY0 : YearState :=
  ⟨0, 0, 0, 0, 0, 0, 0, 0, 0, 0, 0, 0, 0, 0, 0, 0, 0, 0, 0, 0, 0, 0, 0, false, 0⟩

/-- Running state after year 0 for the all-zero inputs. -/
def zS1 : RunState := ⟨0, 0, 0, 0, 0, 0, 0, false, 0, 0⟩

/-- Snapshot of year 0 for `oBase` (offset balance 7). -/
def oY0 : YearState :=
  ⟨0, 0, 0, 0, 0, 0, 0, 0, 0, 0, 0, 0, 0, 0, 0, 0, 7, 0, 0, 0, 7, 0, 7, false, 0⟩

/-- Running state after year 0 for `oBase`. -/
def oS1 : RunState := ⟨0, 0, 0, 0, 7, 0, 0, false, 0, 0⟩

/-- Snapshot of year 0 for `wBase` (minimum monthly repayment 1). -/
def wY0 : YearState :=
  ⟨0, 0, 0, 0, 13, 0, 0, 0, 0, 0, 0, 13, -13, 0, 0, 0, 0, 0, 0, 0, 0, 0, 0, false, 0⟩

/-- Running state after year 0 for `wBase`. -/
def wS1 : RunState := ⟨0, 0, 0, 0, 0, 0, 0, false, 0, 0⟩

/-! Coherence between the emitted snapshot and the updated running state:

The snapshot pushed by a loop iteration and the updated running state store
the same values of the loop's mutable variables, so these are definitional. -/

theorem simYear_fst_yearIndex (base : BaseInputs) (tips : TipInputs) (a : Assumptions)
    (k : ℕ) (s : RunState) : (simYear base tips a k s).1.yearIndex = k := rfl

theorem simYear_fst_snd_balance (base : BaseInputs) (tips : TipInputs) (a : Assumptions)
    (k : ℕ) (s : RunState) :
    (simYear base tips a k s).1.homeLoanBalance = (simYear base tips a k s).2.homeLoanBalance := rfl

theorem simYear_fst_snd_netIncome (base : BaseInputs) (tips : TipInputs) (a : Assumptions)
    (k : ℕ) (s : RunState) :
    (simYear base tips a k s).1.netIncome = (simYear base tips a k s).2.netIncome := rfl

theorem simYear_fst_offset (base : BaseInputs) (tips : TipInputs) (a : Assumptions)
    (k : ℕ) (s : RunState) :
    (simYear base tips a k s).1.offsetBalance = s.offsetBalance := rfl

theorem simYear_snd_offset (base : BaseInputs) (tips : TipInputs) (a : Assumptions)
    (k : ℕ) (s : RunState) :
    (simYear base tips a k s).2.offsetBalance = s.offsetBalance := rfl

theorem simYear_fst_snd_ipLoan (base : BaseInputs) (tips : TipInputs) (a : Assumptions)
    (k : ℕ) (s : RunState) :
    (simYear base tips a k s).1.ipLoanBalance = (simYear base tips a k s).2.ipLoanBalance := rfl

theorem simYear_fst_snd_investLoan (base : BaseInputs) (tips : TipInputs) (a : Assumptions)
    (k : ℕ) (s : RunState) :
    (simYear base tips a k s).1.investmentLoanBalance
      = (simYear base tips a k s).2.investmentLoanBalance := rfl

theorem simYear_fst_snd_portfolio (base : BaseInputs) (tips : TipInputs) (a : Assumptions)
    (k : ℕ) (s : RunState) :
    (simYear base tips a k s).1.investPortfolioValue
      = (simYear base tips a k s).2.investPortfolioValue := rfl

/-! Characterisation of single pipeline stages. -/

theorem simYear_repayments (base : BaseInputs) (tips : TipInputs) (a : Assumptions)
    (k : ℕ) (s : RunState) :
    (simYear base tips a k s).1.homeLoanRepayments =
      (base.minRepaymentMonthly + tips.tip1_extraSavingsPerMonth) * 13
        + 0.5 * ((simYear base tips a k s).1.netIncome - s.netIncome) := by
  unfold simYear
  dsimp only
  split_ifs with h
  · ring
  · ring

theorem simYear_interest (base : BaseInputs) (tips : TipInputs) (a : Assumptions)
    (k : ℕ) (s : RunState) :
    (simYear base tips a k s).1.homeLoanInterest =
      max 0 (s.homeLoanBalance - max 0 (s.offsetBalance - base.emergencyFundTarget))
        * base.homeLoanRate := rfl

theorem simYear_balance_update (base : BaseInputs) (tips : TipInputs) (a : Assumptions)
    (k : ℕ) (s : RunState) :
    (simYear base tips a k s).1.homeLoanBalance =
      if (simYear base tips a k s).1.homeLoanRepayments
          < (simYear base tips a k s).1.homeLoanInterest then
        s.homeLoanBalance + (simYear base tips a k s).1.homeLoanInterest
      else
        max 0 (s.homeLoanBalance
          - ((simYear base tips a k s).1.homeLoanRepayments
              - (simYear base tips a k s).1.homeLoanInterest)) := by
  unfold simYear
  dsimp only
  simp only [sub_neg]

theorem simYear_mortgageSpec (base : BaseInputs) (tips : TipInputs) (a : Assumptions)
    (k : ℕ) (s : RunState) (hoff : s.offsetBalance = base.offsetBalance) :
    mortgageSpec base tips s.netIncome s.homeLoanBalance (simYear base tips a k s).1 := by
  refine ⟨simYear_repayments base tips a k s, ?_, simYear_balance_update base tips a k s⟩
  rw [simYear_interest, hoff]

theorem simYear_balance_nonneg (base : BaseInputs) (tips : TipInputs) (a : Assumptions)
    (k : ℕ) (s : RunState) (hr : 0 ≤ base.homeLoanRate) (hs : 0 ≤ s.homeLoanBalance) :
    0 ≤ (simYear base tips a k s).1.homeLoanBalance := by
  have hint : 0 ≤ (simYear base tips a k s).1.homeLoanInterest := by
    rw [simYear_interest]
    exact mul_nonneg (le_max_left 0 _) hr
  rw [simYear_balance_update]
  split
  · exact add_nonneg hs hint
  · exact le_max_left 0 _

theorem simYear_balance_le (base : BaseInputs) (tips : TipInputs) (a : Assumptions)
    (k : ℕ) (s : RunState) (hs : 0 ≤ s.homeLoanBalance)
    (hlt : (simYear base tips a k s).1.homeLoanInterest
        < (simYear base tips a k s).1.homeLoanRepayments) :
    (simYear base tips a k s).1.homeLoanBalance ≤ s.homeLoanBalance := by
  rw [simYear_balance_update, if_neg (not_lt.mpr hlt.le)]
  refine max_le hs (sub_le_self _ ?_)
  exact sub_nonneg.mpr hlt.le

theorem simYear_snd_ipLoan_cases (base : BaseInputs) (tips : TipInputs) (a : Assumptions)
    (k : ℕ) (s : RunState) :
    (simYear base tips a k s).2.ipLoanBalance =
        tips.tip5_purchasePrice + tips.tip5_purchasePrice * tips.tip5_purchaseCostsRate
      ∨ (simYear base tips a k s).2.ipLoanBalance = s.ipLoanBalance := by
  unfold simYear
  dsimp only
  exact ite_eq_or_eq _ _ _

theorem simYear_liquidation (base : BaseInputs) (tips : TipInputs) (a : Assumptions)
    (k : ℕ) (s : RunState) :
    (simYear base tips a k s).1.totalAvailableIfSold =
      (if 0 < (simYear base tips a k s).1.ipValue then
          max 0 ((simYear base tips a k s).1.ipValue * (1 - 0.03)
            - (simYear base tips a k s).1.ipLoanBalance)
        else 0)
      + (if 0 < (simYear base tips a k s).1.investPortfolioValue then
          (simYear base tips a k s).1.investPortfolioValue * (1 - a.effectiveCgtRate)
        else 0) := rfl

theorem simYear_flag (base : BaseInputs) (tips : TipInputs) (a : Assumptions)
    (k : ℕ) (s : RunState) :
    (simYear base tips a k s).1.couldClearHomeLoan =
      (decide (0 < (simYear base tips a k s).1.homeLoanBalance) &&
        decide ((simYear base tips a k s).1.homeLoanBalance
          ≤ (simYear base tips a k s).1.totalAvailableIfSold)) := rfl

theorem simYear_flag_iff (base : BaseInputs) (tips : TipInputs) (a : Assumptions)
    (k : ℕ) (s : RunState) :
    (simYear base tips a k s).1.couldClearHomeLoan = true ↔
      0 < (simYear base tips a k s).1.homeLoanBalance ∧
        (simYear base tips a k s).1.homeLoanBalance
          ≤ (simYear base tips a k s).1.totalAvailableIfSold := by
  rw [simYear_flag]
  simp only [Bool.and_eq_true, decide_eq_true_eq]

theorem ite_min_nonneg (r b : ℚ) (c : Prop) [Decidable c] (hc : c → 0 < r ∧ 0 < b) :
    0 ≤ if c then min r b else 0 := by
  split_ifs with h
  · exact le_min (hc h).1.le (hc h).2.le
  · exact le_refl 0

theorem simYear_investLoan_mono (base : BaseInputs) (tips : TipInputs) (a : Assumptions)
    (k : ℕ) (s : RunState) :
    s.investmentLoanBalance ≤ (simYear base tips a k s).2.investmentLoanBalance := by
  unfold simYear
  dsimp only
  exact le_add_of_nonneg_right (ite_min_nonneg _ _ _ fun h => ⟨h.1, h.2.1⟩)

theorem portfolio_ite_eq (pv c : ℚ) :
    (if 0 < pv + c then pv + c + (pv + c) * 0 + (pv + c) * (0 - 0) else pv + c) = pv + c := by
  split_ifs with h
  · ring
  · rfl

theorem simYear_portfolio_eq_add (base : BaseInputs) (tips : TipInputs) (a : Assumptions)
    (k : ℕ) (s : RunState) (hd : tips.tip6_dividendYield = 0)
    (hr : tips.tip6_investReturn = 0) :
    (simYear base tips a k s).2.investPortfolioValue =
      s.investPortfolioValue
        + ((simYear base tips a k s).2.investmentLoanBalance - s.investmentLoanBalance) := by
  unfold simYear
  dsimp only
  rw [hd, hr, add_sub_cancel_left]
  exact portfolio_ite_eq _ _

theorem simYear_portfolio_mono (base : BaseInputs) (tips : TipInputs) (a : Assumptions)
    (k : ℕ) (s : RunState) (hd : tips.tip6_dividendYield = 0)
    (hr : tips.tip6_investReturn = 0) :
    s.investPortfolioValue ≤ (simYear base tips a k s).2.investPortfolioValue := by
  rw [simYear_portfolio_eq_add base tips a k s hd hr]
  exact le_add_of_nonneg_right (sub_nonneg.mpr (simYear_investLoan_mono base tips a k s))

/-! Shape of the loop. -/

theorem simLoop_zero (base : BaseInputs) (tips : TipInputs) (a : Assumptions)
    (k : ℕ) (s : RunState) : simLoop base tips a 0 k s = ([], none) := rfl

theorem simLoop_succ_break (base : BaseInputs) (tips : TipInputs) (a : Assumptions)
    (fuel k : ℕ) (s : RunState)
    (hb : (simYear base tips a k s).1.homeLoanBalance ≤ 0.01) :
    simLoop base tips a (fuel + 1) k s =
      ([(simYear base tips a k s).1],
        if (simYear base tips a k s).1.couldClearHomeLoan then some k else none) := by
  rw [simLoop]
  simp only [if_pos hb]

theorem simLoop_succ_cont (base : BaseInputs) (tips : TipInputs) (a : Assumptions)
    (fuel k : ℕ) (s : RunState)
    (hb : ¬(simYear base tips a k s).1.homeLoanBalance ≤ 0.01) :
    simLoop base tips a (fuel + 1) k s =
      ((simYear base tips a k s).1
          :: (simLoop base tips a fuel (k + 1) (simYear base tips a k s).2).1,
        if (simYear base tips a k s).1.couldClearHomeLoan then some k
        else (simLoop base tips a fuel (k + 1) (simYear base tips a k s).2).2) := by
  rw [simLoop]
  simp only [if_neg hb]

theorem simLoop_length (base : BaseInputs) (tips : TipInputs) (a : Assumptions)
    (fuel : ℕ) : ∀ (k : ℕ) (s : RunState), (simLoop base tips a fuel k s).1.length ≤ fuel := by
  induction fuel with
  | zero => intro k s; simp [simLoop_zero]
  | succ n ih =>
    intro k s
    by_cases hb : (simYear base tips a k s).1.homeLoanBalance ≤ 0.01
    · rw [simLoop_succ_break base tips a n k s hb]
      simp
    · rw [simLoop_succ_cont base tips a n k s hb]
      simpa using ih (k + 1) (simYear base tips a k s).2

theorem simLoop_get (base : BaseInputs) (tips : TipInputs) (a : Assumptions)
    (fuel : ℕ) : ∀ (k : ℕ) (s : RunState) (i : ℕ)
      (h : i < (simLoop base tips a fuel k s).1.length),
      (simLoop base tips a fuel k s).1.get ⟨i, h⟩ =
        (simYear base tips a (k + i) (iterState base tips a i k s)).1 := by
  induction fuel with
  | zero => intro k s i h; simp [simLoop_zero] at h
  | succ n ih =>
    intro k s i h
    by_cases hb : (simYear base tips a k s).1.homeLoanBalance ≤ 0.01
    · have hl : i < 1 := by
        have := h
        rw [simLoop_succ_break base tips a n k s hb] at this
        simpa using this
      interval_cases i
      · simp only [simLoop_succ_break base tips a n k s hb, List.get]
        rfl
    · cases i with
      | zero =>
        simp only [simLoop_succ_cont base tips a n k s hb, List.get]
        rfl
      | succ j =>
        have hj : j < (simLoop base tips a n (k + 1) (simYear base tips a k s).2).1.length := by
          have := h
          rw [simLoop_succ_cont base tips a n k s hb] at this
          simpa using this
        have step := ih (k + 1) (simYear base tips a k s).2 j hj
        have hget : (simLoop base tips a (n + 1) k s).1.get ⟨j + 1, h⟩ =
            (simLoop base tips a n (k + 1) (simYear base tips a k s).2).1.get ⟨j, hj⟩ := by
          have hcons := simLoop_succ_cont base tips a n k s hb
          have : (simLoop base tips a (n + 1) k s).1 =
              (simYear base tips a k s).1
                :: (simLoop base tips a n (k + 1) (simYear base tips a k s).2).1 := by
            rw [hcons]
          rw [List.get_of_eq this]
          rfl
        rw [hget, step]
        have harith : k + 1 + j = k + (j + 1) := by omega
        rw [harith]
        rfl

theorem simLoop_break_last (base : BaseInputs) (tips : TipInputs) (a : Assumptions)
    (fuel : ℕ) : ∀ (k : ℕ) (s : RunState) (i : ℕ)
      (h : i < (simLoop base tips a fuel k s).1.length),
      ((simLoop base tips a fuel k s).1.get ⟨i, h⟩).homeLoanBalance ≤ 0.01 →
        i + 1 = (simLoop base tips a fuel k s).1.length := by
  induction fuel with
  | zero => intro k s i h; simp [simLoop_zero] at h
  | succ n ih =>
    intro k s i h hle
    by_cases hb : (simYear base tips a k s).1.homeLoanBalance ≤ 0.01
    · have hl : i < 1 := by
        have := h
        rw [simLoop_succ_break base tips a n k s hb] at this
        simpa using this
      rw [simLoop_succ_break base tips a n k s hb]
      simp only [List.length_cons, List.length_nil]
      omega
    · cases i with
      | zero =>
        exfalso
        apply hb
        have hz : (simLoop base tips a (n + 1) k s).1.get ⟨0, h⟩ =
            (simYear base tips a k s).1 := by
          simp only [simLoop_succ_cont base tips a n k s hb, List.get]
        rw [hz] at hle
        exact hle
      | succ j =>
        have hj : j < (simLoop base tips a n (k + 1) (simYear base tips a k s).2).1.length := by
          have := h
          rw [simLoop_succ_cont base tips a n k s hb] at this
          simpa using this
        have hget : (simLoop base tips a (n + 1) k s).1.get ⟨j + 1, h⟩ =
            (simLoop base tips a n (k + 1) (simYear base tips a k s).2).1.get ⟨j, hj⟩ := by
          have : (simLoop base tips a (n + 1) k s).1 =
              (simYear base tips a k s).1
                :: (simLoop base tips a n (k + 1) (simYear base tips a k s).2).1 := by
            rw [simLoop_succ_cont base tips a n k s hb]
          rw [List.get_of_eq this]
          rfl
        rw [hget] at hle
        have := ih (k + 1) (simYear base tips a k s).2 j hj hle
        rw [simLoop_succ_cont base tips a n k s hb]
        simp only [List.length_cons]
        omega

theorem simLoop_mem_yearIndex (base : BaseInputs) (tips : TipInputs) (a : Assumptions)
    (fuel : ℕ) : ∀ (k : ℕ) (s : RunState) (y : YearState),
      y ∈ (simLoop base tips a fuel k s).1 → k ≤ y.yearIndex := by
  induction fuel with
  | zero => intro k s y hy; simp [simLoop_zero] at hy
  | succ n ih =>
    intro k s y hy
    by_cases hb : (simYear base tips a k s).1.homeLoanBalance ≤ 0.01
    · rw [simLoop_succ_break base tips a n k s hb] at hy
      simp at hy
      rw [hy, simYear_fst_yearIndex]
    · rw [simLoop_succ_cont base tips a n k s hb] at hy
      rcases List.mem_cons.mp hy with h0 | h1
      · rw [h0, simYear_fst_yearIndex]
      · have := ih (k + 1) (simYear base tips a k s).2 y h1
        omega

theorem simLoop_dfi_none (base : BaseInputs) (tips : TipInputs) (a : Assumptions)
    (fuel : ℕ) : ∀ (k : ℕ) (s : RunState),
      (simLoop base tips a fuel k s).2 = none ↔
        ∀ y ∈ (simLoop base tips a fuel k s).1, y.couldClearHomeLoan = false := by
  induction fuel with
  | zero => intro k s; simp [simLoop_zero]
  | succ n ih =>
    intro k s
    by_cases hb : (simYear base tips a k s).1.homeLoanBalance ≤ 0.01
    · rw [simLoop_succ_break base tips a n k s hb]
      by_cases hf : (simYear base tips a k s).1.couldClearHomeLoan
      · simp [hf]
      · simp [hf]
    · rw [simLoop_succ_cont base tips a n k s hb]
      by_cases hf : (simYear base tips a k s).1.couldClearHomeLoan
      · simp [hf]
      · simp only [if_neg hf]
        rw [ih (k + 1) (simYear base tips a k s).2]
        constructor
        · intro hall y hy
          rcases List.mem_cons.mp hy with h0 | h1
          · rw [h0]
            simpa using hf
          · exact hall y h1
        · intro hall y hy
          exact hall y (List.mem_cons_of_mem _ hy)

theorem simLoop_dfi_some (base : BaseInputs) (tips : TipInputs) (a : Assumptions)
    (fuel : ℕ) : ∀ (k : ℕ) (s : RunState) (i : ℕ),
      (simLoop base tips a fuel k s).2 = some i →
        (∃ y ∈ (simLoop base tips a fuel k s).1,
            y.yearIndex = i ∧ y.couldClearHomeLoan = true) ∧
          ∀ y ∈ (simLoop base tips a fuel k s).1,
            y.couldClearHomeLoan = true → i ≤ y.yearIndex := by
  induction fuel with
  | zero => intro k s i hi; simp [simLoop_zero] at hi
  | succ n ih =>
    intro k s i hi
    by_cases hb : (simYear base tips a k s).1.homeLoanBalance ≤ 0.01
    · rw [simLoop_succ_break base tips a n k s hb] at hi ⊢
      by_cases hf : (simYear base tips a k s).1.couldClearHomeLoan
      · rw [if_pos hf] at hi
        have hik : k = i := Option.some.inj hi
        constructor
        · refine ⟨(simYear base tips a k s).1, List.mem_singleton_self _, ?_, hf⟩
          rw [simYear_fst_yearIndex]
          omega
        · intro y hy _
          rw [List.mem_singleton.mp hy, simYear_fst_yearIndex]
          omega
      · rw [if_neg hf] at hi
        exact absurd hi (by simp)
    · rw [simLoop_succ_cont base tips a n k s hb] at hi ⊢
      by_cases hf : (simYear base tips a k s).1.couldClearHomeLoan
      · rw [if_pos hf] at hi
        have hik : k = i := Option.some.inj hi
        constructor
        · exact ⟨(simYear base tips a k s).1, List.mem_cons_self _ _,
            by rw [simYear_fst_yearIndex]; omega, hf⟩
        · intro y hy _
          rcases List.mem_cons.mp hy with h0 | h1
          · rw [h0, simYear_fst_yearIndex]; omega
          · have := simLoop_mem_yearIndex base tips a n (k + 1)
              (simYear base tips a k s).2 y h1
            omega
      · rw [if_neg hf] at hi
        obtain ⟨⟨y0, hy0, hyi, hyf⟩, hmin⟩ := ih (k + 1) (simYear base tips a k s).2 i hi
        constructor
        · exact ⟨y0, List.mem_cons_of_mem _ hy0, hyi, hyf⟩
        · intro y hy hyt
          rcases List.mem_cons.mp hy with h0 | h1
          · exfalso
            apply hf
            rw [← h0]
            exact hyt
          · exact hmin y h1 hyt

/-! Iterated state. -/

theorem iterState_zero (base : BaseInputs) (tips : TipInputs) (a : Assumptions)
    (k : ℕ) (s : RunState) : iterState base tips a 0 k s = s := rfl

theorem iterState_succ (base : BaseInputs) (tips : TipInputs) (a : Assumptions)
    (n k : ℕ) (s : RunState) :
    iterState base tips a (n + 1) k s =
      iterState base tips a n (k + 1) (simYear base tips a k s).2 := rfl

theorem iterState_succ_back (base : BaseInputs) (tips : TipInputs) (a : Assumptions)
    (n : ℕ) : ∀ (k : ℕ) (s : RunState),
      iterState base tips a (n + 1) k s =
        (simYear base tips a (k + n) (iterState base tips a n k s)).2 := by
  induction n with
  | zero => intro k s; rfl
  | succ m ih =>
    intro k s
    rw [iterState_succ, ih (k + 1) (simYear base tips a k s).2, ← iterState_succ]
    have : k + 1 + m = k + (m + 1) := by omega
    rw [this]

theorem iterState_offset (base : BaseInputs) (tips : TipInputs) (a : Assumptions)
    (n : ℕ) : ∀ (k : ℕ) (s : RunState),
      (iterState base tips a n k s).offsetBalance = s.offsetBalance := by
  induction n with
  | zero => intro k s; rfl
  | succ m ih =>
    intro k s
    rw [iterState_succ, ih (k + 1) (simYear base tips a k s).2, simYear_snd_offset]

theorem iterState_balance_nonneg (base : BaseInputs) (tips : TipInputs) (a : Assumptions)
    (hr : 0 ≤ base.homeLoanRate) (n : ℕ) : ∀ (k : ℕ) (s : RunState),
      0 ≤ s.homeLoanBalance → 0 ≤ (iterState base tips a n k s).homeLoanBalance := by
  induction n with
  | zero => intro k s hs; exact hs
  | succ m ih =>
    intro k s hs
    rw [iterState_succ]
    refine ih (k + 1) (simYear base tips a k s).2 ?_
    rw [← simYear_fst_snd_balance]
    exact simYear_balance_nonneg base tips a k s hr hs

theorem iterState_ipLoan_nonneg (base : BaseInputs) (tips : TipInputs) (a : Assumptions)
    (hp : 0 ≤ tips.tip5_purchasePrice) (hc : 0 ≤ tips.tip5_purchaseCostsRate)
    (n : ℕ) : ∀ (k : ℕ) (s : RunState),
      0 ≤ s.ipLoanBalance → 0 ≤ (iterState base tips a n k s).ipLoanBalance := by
  induction n with
  | zero => intro k s hs; exact hs
  | succ m ih =>
    intro k s hs
    rw [iterState_succ]
    refine ih (k + 1) (simYear base tips a k s).2 ?_
    rcases simYear_snd_ipLoan_cases base tips a k s with hcase | hcase
    · rw [hcase]
      exact add_nonneg hp (mul_nonneg hp hc)
    · rw [hcase]
      exact hs

/-! The simulation run. -/

theorem run_years (base : BaseInputs) (tips : TipInputs) (c : CustomAssumptions) :
    (runDebtProSimulation base tips c).years =
      (simLoop base tips (mergeAssumptions c) (mergeAssumptions c).projectionYears.toNat 0
        (initialState base)).1 := rfl

theorem run_dfi (base : BaseInputs) (tips : TipInputs) (c : CustomAssumptions) :
    (runDebtProSimulation base tips c).debtFreeYearIndex =
      (simLoop base tips (mergeAssumptions c) (mergeAssumptions c).projectionYears.toNat 0
        (initialState base)).2 := rfl

theorem run_get (base : BaseInputs) (tips : TipInputs) (c : CustomAssumptions)
    (i : ℕ) (h : i < (runDebtProSimulation base tips c).years.length) :
    (runDebtProSimulation base tips c).years.get ⟨i, h⟩ =
      (simYear base tips (mergeAssumptions c) i
        (iterState base tips (mergeAssumptions c) i 0 (initialState base))).1 := by
  have := simLoop_get base tips (mergeAssumptions c)
    (mergeAssumptions c).projectionYears.toNat 0 (initialState base) i (by
      rw [run_years] at h
      exact h)
  rw [zero_add] at this
  exact this

theorem run_ipLoan_nonneg (base : BaseInputs) (tips : TipInputs) (c : CustomAssumptions)
    (hp : 0 ≤ tips.tip5_purchasePrice) (hc : 0 ≤ tips.tip5_purchaseCostsRate)
    (i : ℕ) (h : i < (runDebtProSimulation base tips c).years.length) :
    0 ≤ ((runDebtProSimulation base tips c).years.get ⟨i, h⟩).ipLoanBalance := by
  rw [run_get, simYear_fst_snd_ipLoan]
  rcases simYear_snd_ipLoan_cases base tips (mergeAssumptions c) i
      (iterState base tips (mergeAssumptions c) i 0 (initialState base)) with hcase | hcase
  · rw [hcase]
    exact add_nonneg hp (mul_nonneg hp hc)
  · rw [hcase]
    exact iterState_ipLoan_nonneg base tips (mergeAssumptions c) hp hc i 0
      (initialState base) le_rfl

/-! The claims. -/

/-- C1: for every invocation of `runDebtProSimulation`, the result's
`debtFreeYearIndex`, if present, equals the smallest `yearIndex` among all
emitted snapshots whose `couldClearHomeLoan` is true, and it is absent when no
snapshot has that flag true; later true occurrences never overwrite the
first. -/
theorem debtFreeYearIndex_first_occurrence (base : BaseInputs) (tips : TipInputs)
    (c : CustomAssumptions) :
    ((runDebtProSimulation base tips c).debtFreeYearIndex = none ↔
        ∀ y ∈ (runDebtProSimulation base tips c).years, y.couldClearHomeLoan = false) ∧
      ∀ i, (runDebtProSimulation base tips c).debtFreeYearIndex = some i →
        (∃ y ∈ (runDebtProSimulation base tips c).years,
            y.yearIndex = i ∧ y.couldClearHomeLoan = true) ∧
          ∀ y ∈ (runDebtProSimulation base tips c).years,
            y.couldClearHomeLoan = true → i ≤ y.yearIndex := by
  constructor
  · exact simLoop_dfi_none base tips (mergeAssumptions c)
      (mergeAssumptions c).projectionYears.toNat 0 (initialState base)
  · intro i hi
    exact simLoop_dfi_some base tips (mergeAssumptions c)
      (mergeAssumptions c).projectionYears.toNat 0 (initialState base) i hi

/-- C2: if a snapshot is emitted whose `homeLoanBalance` is at or below 0.01,
that snapshot is the last element of the returned sequence (equivalently,
every non-final snapshot has `homeLoanBalance` greater than 0.01). -/
theorem earlyExit_last_snapshot (base : BaseInputs) (tips : TipInputs)
    (c : CustomAssumptions) :
    ∀ (i : ℕ) (h : i < (runDebtProSimulation base tips c).years.length),
      ((runDebtProSimulation base tips c).years.get ⟨i, h⟩).homeLoanBalance ≤ 0.01 →
        i + 1 = (runDebtProSimulation base tips c).years.length := by
  intro i h hle
  exact simLoop_break_last base tips (mergeAssumptions c)
    (mergeAssumptions c).projectionYears.toNat 0 (initialState base) i h hle

/-- C9: every emitted snapshot's `offsetBalance` equals `base.offsetBalance`
unchanged: no pipeline stage mutates the offset balance during a run. -/
theorem offsetBalance_constant (base : BaseInputs) (tips : TipInputs)
    (c : CustomAssumptions) :
    ∀ y ∈ (runDebtProSimulation base tips c).years,
      y.offsetBalance = base.offsetBalance := by
  intro y hy
  obtain ⟨⟨i, hi⟩, hget⟩ := List.mem_iff_get.mp hy
  rw [← hget, run_get, simYear_fst_offset, iterState_offset]
  rfl

/-- C10: the i-th emitted snapshot has `yearIndex` exactly i, the sequence
length never exceeds the merged `projectionYears`, and if `projectionYears`
is at most 0 the sequence is empty and `debtFreeYearIndex` is absent. -/
theorem yearIndex_position_length (base : BaseInputs) (tips : TipInputs)
    (c : CustomAssumptions) :
    (∀ (i : ℕ) (h : i < (runDebtProSimulation base tips c).years.length),
        ((runDebtProSimulation base tips c).years.get ⟨i, h⟩).yearIndex = i) ∧
      (runDebtProSimulation base tips c).years.length
          ≤ (mergeAssumptions c).projectionYears.toNat ∧
      ((mergeAssumptions c).projectionYears ≤ 0 →
        (runDebtProSimulation base tips c).years = [] ∧
          (runDebtProSimulation base tips c).debtFreeYearIndex = none) := by
  refine ⟨?_, ?_, ?_⟩
  · intro i h
    rw [run_get, simYear_fst_yearIndex]
  · rw [run_years]
    exact simLoop_length base tips (mergeAssumptions c)
      (mergeAssumptions c).projectionYears.toNat 0 (initialState base)
  · intro hle
    have h0 : (mergeAssumptions c).projectionYears.toNat = 0 := Int.toNat_of_nonpos hle
    constructor
    · rw [run_years, h0, simLoop_zero]
    · rw [run_dfi, h0, simLoop_zero]

/-- C8: for every input whose monetary fields are nonnegative and whose rate
fields are nonnegative, the `homeLoanBalance` recorded in every emitted
snapshot is nonnegative. -/
theorem homeLoanBalance_nonneg (base : BaseInputs) (tips : TipInputs)
    (c : CustomAssumptions) (hb : BaseInputsNonneg base) (ht : TipInputsNonneg tips)
    (ha : AssumptionsNonneg (mergeAssumptions c)) :
    ∀ y ∈ (runDebtProSimulation base tips c).years, 0 ≤ y.homeLoanBalance := by
  intro y hy
  obtain ⟨⟨i, hi⟩, hget⟩ := List.mem_iff_get.mp hy
  rw [← hget, run_get]
  exact simYear_balance_nonneg base tips (mergeAssumptions c) i _ hb.2.2.1
    (iterState_balance_nonneg base tips (mergeAssumptions c) hb.2.2.1 i 0
      (initialState base) hb.2.1)

/-- C7: if `minRepaymentMonthly * 13` is positive and the home loan rate is
nonnegative (all inputs satisfying the data-model invariant that the initial
home loan balance is nonnegative), then in any year where the effective-debt
interest is strictly below that year's total repayment the end-of-year
balance does not exceed the previous year's balance, and the balance is never
negative. -/
theorem payoff_monotone (base : BaseInputs) (tips : TipInputs) (c : CustomAssumptions)
    (hm : 0 < base.minRepaymentMonthly * 13) (hr : 0 ≤ base.homeLoanRate)
    (hb0 : 0 ≤ base.homeLoanBalance) :
    (∀ (i : ℕ) (h : i < (runDebtProSimulation base tips c).years.length),
        0 ≤ ((runDebtProSimulation base tips c).years.get ⟨i, h⟩).homeLoanBalance) ∧
      (∀ h0 : 0 < (runDebtProSimulation base tips c).years.length,
        ((runDebtProSimulation base tips c).years.get ⟨0, h0⟩).homeLoanInterest
            < ((runDebtProSimulation base tips c).years.get ⟨0, h0⟩).homeLoanRepayments →
          ((runDebtProSimulation base tips c).years.get ⟨0, h0⟩).homeLoanBalance
            ≤ base.homeLoanBalance) ∧
      ∀ (i : ℕ) (h : i + 1 < (runDebtProSimulation base tips c).years.length),
        ((runDebtProSimulation base tips c).years.get ⟨i + 1, h⟩).homeLoanInterest
            < ((runDebtProSimulation base tips c).years.get ⟨i + 1, h⟩).homeLoanRepayments →
          ((runDebtProSimulation base tips c).years.get ⟨i + 1, h⟩).homeLoanBalance
            ≤ ((runDebtProSimulation base tips c).years.get
                ⟨i, Nat.lt_of_succ_lt h⟩).homeLoanBalance := by
  refine ⟨?_, ?_, ?_⟩
  · intro i h
    rw [run_get]
    exact simYear_balance_nonneg base tips (mergeAssumptions c) i _ hr
      (iterState_balance_nonneg base tips (mergeAssumptions c) hr i 0
        (initialState base) hb0)
  · intro h0 hlt
    rw [run_get] at hlt ⊢
    exact simYear_balance_le base tips (mergeAssumptions c) 0 _ hb0 hlt
  · intro i h hlt
    rw [run_get] at hlt ⊢
    rw [run_get]
    have hback : iterState base tips (mergeAssumptions c) (i + 1) 0 (initialState base) =
        (simYear base tips (mergeAssumptions c) i
          (iterState base tips (mergeAssumptions c) i 0 (initialState base))).2 := by
      rw [iterState_succ_back]
      rw [zero_add]
    rw [hback] at hlt ⊢
    rw [simYear_fst_snd_balance]
    refine simYear_balance_le base tips (mergeAssumptions c) (i + 1) _ ?_ hlt
    rw [← simYear_fst_snd_balance]
    exact simYear_balance_nonneg base tips (mergeAssumptions c) i _ hr
      (iterState_balance_nonneg base tips (mergeAssumptions c) hr i 0
        (initialState base) hb0)

/-- C4: in every simulated year the mortgage stage computes the total
repayment as `(minRepaymentMonthly + extra monthly repayment) * 13` plus the
salary-growth diversion, the interest on the effective (offset-reduced) debt,
and the balance update with principal reduction floored at zero
(`mortgageSpec` relative to the previous year's income and balance). -/
theorem mortgage_stage_spec (base : BaseInputs) (tips : TipInputs)
    (c : CustomAssumptions) :
    (∀ h0 : 0 < (runDebtProSimulation base tips c).years.length,
        mortgageSpec base tips base.netIncomeAnnual base.homeLoanBalance
          ((runDebtProSimulation base tips c).years.get ⟨0, h0⟩)) ∧
      ∀ (i : ℕ) (h : i + 1 < (runDebtProSimulation base tips c).years.length),
        mortgageSpec base tips
          ((runDebtProSimulation base tips c).years.get
            ⟨i, Nat.lt_of_succ_lt h⟩).netIncome
          ((runDebtProSimulation base tips c).years.get
            ⟨i, Nat.lt_of_succ_lt h⟩).homeLoanBalance
          ((runDebtProSimulation base tips c).years.get ⟨i + 1, h⟩) := by
  constructor
  · intro h0
    rw [run_get]
    exact simYear_mortgageSpec base tips (mergeAssumptions c) 0 (initialState base) rfl
  · intro i h
    rw [run_get, run_get]
    have hback : iterState base tips (mergeAssumptions c) (i + 1) 0 (initialState base) =
        (simYear base tips (mergeAssumptions c) i
          (iterState base tips (mergeAssumptions c) i 0 (initialState base))).2 := by
      rw [iterState_succ_back]
      rw [zero_add]
    rw [hback, simYear_fst_snd_netIncome, simYear_fst_snd_balance]
    refine simYear_mortgageSpec base tips (mergeAssumptions c) (i + 1) _ ?_
    rw [simYear_snd_offset, iterState_offset]
    rfl

/-- C3: in every emitted snapshot (for inputs with nonnegative purchase price
and purchase-cost rate, per the data-model invariant), `totalAvailableIfSold`
equals the CGT-discounted portfolio value (when positive) plus
`max 0 (ipValue * (1 - 0.03) - ipLoanBalance)`, and `couldClearHomeLoan` is
true exactly when the home loan balance is strictly positive and the
liquidation proceeds cover it; in particular the flag is false once the home
loan balance is at most zero. -/
theorem liquidation_snapshot_spec (base : BaseInputs) (tips : TipInputs)
    (c : CustomAssumptions) (hp : 0 ≤ tips.tip5_purchasePrice)
    (hc : 0 ≤ tips.tip5_purchaseCostsRate) :
    ∀ y ∈ (runDebtProSimulation base tips c).years,
      (y.totalAvailableIfSold =
          (if 0 < y.investPortfolioValue then
              y.investPortfolioValue * (1 - (mergeAssumptions c).effectiveCgtRate)
            else 0)
            + max 0 (y.ipValue * (1 - 0.03) - y.ipLoanBalance)) ∧
        (y.couldClearHomeLoan = true ↔
          0 < y.homeLoanBalance ∧ y.homeLoanBalance ≤ y.totalAvailableIfSold) ∧
        (y.homeLoanBalance ≤ 0 → y.couldClearHomeLoan = false) := by
  intro y hy
  obtain ⟨⟨i, hi⟩, hget⟩ := List.mem_iff_get.mp hy
  have hipl : 0 ≤ y.ipLoanBalance := by
    rw [← hget]
    exact run_ipLoan_nonneg base tips c hp hc i hi
  rw [← hget, run_get] at hipl ⊢
  refine ⟨?_, simYear_flag_iff base tips (mergeAssumptions c) i _, ?_⟩
  · rw [simYear_liquidation, add_comm]
    congr 1
    by_cases hiv : 0 < (simYear base tips (mergeAssumptions c) i
        (iterState base tips (mergeAssumptions c) i 0 (initialState base))).1.ipValue
    · rw [if_pos hiv]
    · rw [if_neg hiv]
      symm
      rw [max_eq_left]
      have hm : (simYear base tips (mergeAssumptions c) i
          (iterState base tips (mergeAssumptions c) i 0 (initialState base))).1.ipValue
            * (1 - 0.03) ≤ 0 := by
        have h97 : (0 : ℚ) ≤ 1 - 0.03 := by norm_num
        exact mul_nonpos_iff.mpr (Or.inr ⟨le_of_not_lt hiv, h97⟩)
      linarith
  · intro hle
    rcases Bool.eq_false_or_eq_true ((simYear base tips (mergeAssumptions c) i
        (iterState base tips (mergeAssumptions c) i 0 (initialState base))).1.couldClearHomeLoan)
      with hB | hB
    · have hpos := ((simYear_flag_iff base tips (mergeAssumptions c) i _).mp hB).1
      linarith
    · exact hB

/-! Concrete evaluation support. -/

theorem simLoop_fst_cons (base : BaseInputs) (tips : TipInputs) (a : Assumptions)
    (fuel k : ℕ) (s : RunState) (y : YearState) (s' : RunState)
    (hstep : simYear base tips a k s = (y, s')) (hb : ¬y.homeLoanBalance ≤ 0.01) :
    (simLoop base tips a (fuel + 1) k s).1 =
      y :: (simLoop base tips a fuel (k + 1) s').1 := by
  rw [simLoop_succ_cont base tips a fuel k s (by rw [hstep]; exact hb)]
  rw [hstep]

theorem simLoop_fst_break (base : BaseInputs) (tips : TipInputs) (a : Assumptions)
    (fuel k : ℕ) (s : RunState) (y : YearState) (s' : RunState)
    (hstep : simYear base tips a k s = (y, s')) (hb : y.homeLoanBalance ≤ 0.01) :
    (simLoop base tips a (fuel + 1) k s).1 = [y] := by
  rw [simLoop_succ_break base tips a fuel k s (by rw [hstep]; exact hb)]
  rw [hstep]

theorem simLoop_snd_break_none (base : BaseInputs) (tips : TipInputs) (a : Assumptions)
    (fuel k : ℕ) (s : RunState) (y : YearState) (s' : RunState)
    (hstep : simYear base tips a k s = (y, s')) (hb : y.homeLoanBalance ≤ 0.01)
    (hflag : y.couldClearHomeLoan = false) :
    (simLoop base tips a (fuel + 1) k s).2 = none := by
  rw [simLoop_succ_break base tips a fuel k s (by rw [hstep]; exact hb)]
  rw [hstep]
  simp [hflag]

theorem z_step : simYear zBase zTips DEFAULT_ASSUMPTIONS 0 (initialState zBase) =
    (zY0, zS1) := by
  unfold simYear initialState zBase zTips DEFAULT_ASSUMPTIONS zY0 zS1
  norm_num [max_def, min_def, Prod.ext_iff]

theorem o_step : simYear oBase zTips DEFAULT_ASSUMPTIONS 0 (initialState oBase) =
    (oY0, oS1) := by
  unfold simYear initialState oBase zTips DEFAULT_ASSUMPTIONS oY0 oS1
  norm_num [max_def, min_def, Prod.ext_iff]

theorem w_step : simYear wBase zTips DEFAULT_ASSUMPTIONS 0 (initialState wBase) =
    (wY0, wS1) := by
  unfold simYear initialState wBase zTips DEFAULT_ASSUMPTIONS wY0 wS1
  norm_num [max_def, min_def, Prod.ext_iff]

theorem sb_step0 : simYear sbBase sbTips DEFAULT_ASSUMPTIONS 0 (initialState sbBase) =
    (sbY0, sbS1) := by
  unfold simYear initialState sbBase sbTips DEFAULT_ASSUMPTIONS sbY0 sbS1
  norm_num [max_def, min_def, Prod.ext_iff]

theorem sb_step1 : simYear sbBase sbTips DEFAULT_ASSUMPTIONS 1 sbS1 = (sbY1, sbS2) := by
  unfold simYear sbBase sbTips DEFAULT_ASSUMPTIONS sbY1 sbS1 sbS2
  norm_num [max_def, min_def, Prod.ext_iff]

theorem sb_step2 : simYear sbBase sbTips DEFAULT_ASSUMPTIONS 2 sbS2 = (sbY2, sbS3) := by
  unfold simYear sbBase sbTips DEFAULT_ASSUMPTIONS sbY2 sbS2 sbS3
  norm_num [max_def, min_def, Prod.ext_iff]

theorem sb_step3 : simYear sbBase sbTips DEFAULT_ASSUMPTIONS 3 sbS3 = (sbY3, sbS4) := by
  unfold simYear sbBase sbTips DEFAULT_ASSUMPTIONS sbY3 sbS3 sbS4
  norm_num [max_def, min_def, Prod.ext_iff]

theorem sc_step0 : simYear sbBase scTips DEFAULT_ASSUMPTIONS 0 (initialState sbBase) =
    (sbY0, sbS1) := by
  unfold simYear initialState sbBase scTips DEFAULT_ASSUMPTIONS sbY0 sbS1
  norm_num [max_def, min_def, Prod.ext_iff]

theorem sc_step1 : simYear sbBase scTips DEFAULT_ASSUMPTIONS 1 sbS1 = (sbY1, sbS2) := by
  unfold simYear sbBase scTips DEFAULT_ASSUMPTIONS sbY1 sbS1 sbS2
  norm_num [max_def, min_def, Prod.ext_iff]

theorem sc_step2 : simYear sbBase scTips DEFAULT_ASSUMPTIONS 2 sbS2 = (sbY2, sbS3) := by
  unfold simYear sbBase scTips DEFAULT_ASSUMPTIONS sbY2 sbS2 sbS3
  norm_num [max_def, min_def, Prod.ext_iff]

theorem sc_step3 : simYear sbBase scTips DEFAULT_ASSUMPTIONS 3 sbS3 = (scY3, scS4) := by
  unfold simYear sbBase scTips DEFAULT_ASSUMPTIONS scY3 sbS3 scS4
  norm_num [max_def, min_def, Prod.ext_iff]

theorem zb_years : (runDebtProSimulation zBase zTips noOverrides).years = [zY0] := by
  rw [run_years]
  exact simLoop_fst_break zBase zTips DEFAULT_ASSUMPTIONS 29 0 (initialState zBase)
    zY0 zS1 z_step (by norm_num [zY0])

theorem zb_dfi : (runDebtProSimulation zBase zTips noOverrides).debtFreeYearIndex = none := by
  rw [run_dfi]
  exact simLoop_snd_break_none zBase zTips DEFAULT_ASSUMPTIONS 29 0 (initialState zBase)
    zY0 zS1 z_step (by norm_num [zY0]) (by norm_num [zY0])

theorem ob_years : (runDebtProSimulation oBase zTips noOverrides).years = [oY0] := by
  rw [run_years]
  exact simLoop_fst_break oBase zTips DEFAULT_ASSUMPTIONS 29 0 (initialState oBase)
    oY0 oS1 o_step (by norm_num [oY0])

theorem wb_years : (runDebtProSimulation wBase zTips noOverrides).years = [wY0] := by
  rw [run_years]
  exact simLoop_fst_break wBase zTips DEFAULT_ASSUMPTIONS 29 0 (initialState wBase)
    wY0 wS1 w_step (by norm_num [wY0])

theorem sb_years : (runDebtProSimulation sbBase sbTips noOverrides).years =
    sbY0 :: sbY1 :: sbY2 :: sbY3 ::
      (simLoop sbBase sbTips DEFAULT_ASSUMPTIONS 26 4 sbS4).1 := by
  rw [run_years]
  rw [show mergeAssumptions noOverrides = DEFAULT_ASSUMPTIONS from rfl]
  rw [show DEFAULT_ASSUMPTIONS.projectionYears.toNat = 29 + 1 from rfl]
  rw [simLoop_fst_cons sbBase sbTips DEFAULT_ASSUMPTIONS 29 0 (initialState sbBase)
    sbY0 sbS1 sb_step0 (by norm_num [sbY0])]
  rw [simLoop_fst_cons sbBase sbTips DEFAULT_ASSUMPTIONS 28 1 sbS1
    sbY1 sbS2 sb_step1 (by norm_num [sbY1])]
  rw [simLoop_fst_cons sbBase sbTips DEFAULT_ASSUMPTIONS 27 2 sbS2
    sbY2 sbS3 sb_step2 (by norm_num [sbY2])]
  rw [simLoop_fst_cons sbBase sbTips DEFAULT_ASSUMPTIONS 26 3 sbS3
    sbY3 sbS4 sb_step3 (by norm_num [sbY3])]

theorem simLoop_invest_pos (base : BaseInputs) (tips : TipInputs) (a : Assumptions)
    (hd : tips.tip6_dividendYield = 0) (hret : tips.tip6_investReturn = 0)
    (fuel : ℕ) : ∀ (k : ℕ) (s : RunState),
      0 < s.investmentLoanBalance → 0 < s.investPortfolioValue →
        ∀ y ∈ (simLoop base tips a fuel k s).1,
          0 < y.investmentLoanBalance ∧ 0 < y.investPortfolioValue := by
  induction fuel with
  | zero => intro k s _ _ y hy; simp [simLoop_zero] at hy
  | succ n ih =>
    intro k s hl hp y hy
    have hhead : 0 < (simYear base tips a k s).1.investmentLoanBalance ∧
        0 < (simYear base tips a k s).1.investPortfolioValue := by
      constructor
      · rw [simYear_fst_snd_investLoan]
        exact lt_of_lt_of_le hl (simYear_investLoan_mono base tips a k s)
      · rw [simYear_fst_snd_portfolio]
        exact lt_of_lt_of_le hp (simYear_portfolio_mono base tips a k s hd hret)
    by_cases hb : (simYear base tips a k s).1.homeLoanBalance ≤ 0.01
    · rw [simLoop_succ_break base tips a n k s hb] at hy
      rw [List.mem_singleton.mp hy]
      exact hhead
    · rw [simLoop_succ_cont base tips a n k s hb] at hy
      rcases List.mem_cons.mp hy with h0 | h1
      · rw [h0]
        exact hhead
      · refine ih (k + 1) (simYear base tips a k s).2 ?_ ?_ y h1
        · rw [← simYear_fst_snd_investLoan]
          exact hhead.1
        · rw [← simYear_fst_snd_portfolio]
          exact hhead.2

theorem sc_years : (runDebtProSimulation sbBase scTips noOverrides).years =
    sbY0 :: sbY1 :: sbY2 :: scY3 ::
      (simLoop sbBase scTips DEFAULT_ASSUMPTIONS 26 4 scS4).1 := by
  rw [run_years]
  rw [show mergeAssumptions noOverrides = DEFAULT_ASSUMPTIONS from rfl]
  rw [show DEFAULT_ASSUMPTIONS.projectionYears.toNat = 29 + 1 from rfl]
  rw [simLoop_fst_cons sbBase scTips DEFAULT_ASSUMPTIONS 29 0 (initialState sbBase)
    sbY0 sbS1 sc_step0 (by norm_num [sbY0])]
  rw [simLoop_fst_cons sbBase scTips DEFAULT_ASSUMPTIONS 28 1 sbS1
    sbY1 sbS2 sc_step1 (by norm_num [sbY1])]
  rw [simLoop_fst_cons sbBase scTips DEFAULT_ASSUMPTIONS 27 2 sbS2
    sbY2 sbS3 sc_step2 (by norm_num [sbY2])]
  rw [simLoop_fst_cons sbBase scTips DEFAULT_ASSUMPTIONS 26 3 sbS3
    scY3 scS4 sc_step3 (by norm_num [scY3])]

/-- C5: with scenario B inputs (see `sbBase`, `sbTips`) and default
assumptions, the first year whose snapshot satisfies
`0.8 * homeValue - homeLoanBalance ≥ 210000` is year 3, whose snapshot shows
`ipValue = 700000 * 1.03` (one year of asset growth applied in the
acquisition year itself) and `ipLoanBalance = 735000`, while `ipValue` is 0
in every earlier snapshot. -/
theorem scenB_acquisition_year :
    ((runDebtProSimulation sbBase sbTips noOverrides).years.map
        (fun y => decide (210000 ≤ 0.8 * y.homeValue - y.homeLoanBalance))).take 4
      = [false, false, false, true] ∧
    ((runDebtProSimulation sbBase sbTips noOverrides).years.map
        (fun y => y.ipValue)).take 4 = [0, 0, 0, 700000 * 1.03] ∧
    ((runDebtProSimulation sbBase sbTips noOverrides).years.map
        (fun y => y.ipLoanBalance)).take 4 = [0, 0, 0, 735000] := by
  rw [sb_years]
  refine ⟨?_, ?_, ?_⟩ <;>
    norm_num [sbY0, sbY1, sbY2, sbY3, decide_eq_false_iff_not, decide_eq_true_eq]

/-- C6 counterexample: with scenario C inputs (`sbBase`, `scTips`) the
acquisition year is year 3 (`ipValue` is 0 before it and `700000 * 1.03` in
it), yet the acquisition-year snapshot already shows
`investmentLoanBalance = 10000` and `investPortfolioValue = 10000`, not 0 as
the claim states. -/
theorem scenC_recycling_counterexample :
    ((runDebtProSimulation sbBase scTips noOverrides).years.map
        (fun y => y.ipValue)).take 4 = [0, 0, 0, 700000 * 1.03] ∧
    ((runDebtProSimulation sbBase scTips noOverrides).years.map
        (fun y => y.investmentLoanBalance)).take 4 = [0, 0, 0, 10000] ∧
    ((runDebtProSimulation sbBase scTips noOverrides).years.map
        (fun y => y.investPortfolioValue)).take 4 = [0, 0, 0, 10000] ∧
    ¬((runDebtProSimulation sbBase scTips noOverrides).years.map
        (fun y => y.investmentLoanBalance)).get? 3 = some 0 := by
  rw [sc_years]
  refine ⟨?_, ?_, ?_, ?_⟩ <;> norm_num [sbY0, sbY1, sbY2, scY3]

/-- C6 amended: with scenario C inputs, `investmentLoanBalance` and
`investPortfolioValue` are 0 in every snapshot before the acquisition year
(year 3), and both are strictly positive from the acquisition year itself
onwards (the acquisition-year snapshot already shows both positive). -/
theorem scenC_recycling_from_acquisition_year :
    (∀ y ∈ (runDebtProSimulation sbBase scTips noOverrides).years,
        (y.yearIndex < 3 → y.investmentLoanBalance = 0 ∧ y.investPortfolioValue = 0) ∧
        (3 ≤ y.yearIndex → 0 < y.investmentLoanBalance ∧ 0 < y.investPortfolioValue)) ∧
    ((runDebtProSimulation sbBase scTips noOverrides).years.map
        (fun y => y.ipValue)).take 4 = [0, 0, 0, 700000 * 1.03] := by
  constructor
  · intro y hy
    rw [sc_years] at hy
    rcases List.mem_cons.mp hy with h | hy
    · subst h
      exact ⟨fun _ => ⟨rfl, rfl⟩, fun h3 => absurd h3 (by norm_num [sbY0])⟩
    rcases List.mem_cons.mp hy with h | hy
    · subst h
      exact ⟨fun _ => ⟨rfl, rfl⟩, fun h3 => absurd h3 (by norm_num [sbY1])⟩
    rcases List.mem_cons.mp hy with h | hy
    · subst h
      exact ⟨fun _ => ⟨rfl, rfl⟩, fun h3 => absurd h3 (by norm_num [sbY2])⟩
    rcases List.mem_cons.mp hy with h | hy
    · subst h
      refine ⟨fun h3 => absurd h3 (by norm_num [scY3]), fun _ => ?_⟩
      constructor <;> norm_num [scY3]
    · have hyi := simLoop_mem_yearIndex sbBase scTips DEFAULT_ASSUMPTIONS 26 4 scS4 y hy
      have hpos := simLoop_invest_pos sbBase scTips DEFAULT_ASSUMPTIONS rfl rfl 26 4 scS4
        (by norm_num [scS4]) (by norm_num [scS4]) y hy
      exact ⟨fun h3 => absurd h3 (by omega), fun _ => hpos⟩
  · rw [sc_years]
    norm_num [sbY0, sbY1, sbY2, scY3]

/-! Witnesses. -/

theorem debtFreeYearIndex_first_occurrence_witness :
    (runDebtProSimulation zBase zTips noOverrides).debtFreeYearIndex = none :=
  (debtFreeYearIndex_first_occurrence zBase zTips noOverrides).1.mpr (by
    intro y hy
    rw [zb_years] at hy
    rw [List.mem_singleton.mp hy]
    rfl)

theorem earlyExit_last_snapshot_witness :
    0 + 1 = (runDebtProSimulation zBase zTips noOverrides).years.length := by
  have h1 : 0 < (runDebtProSimulation zBase zTips noOverrides).years.length := by
    rw [zb_years]
    norm_num
  have h2 : (runDebtProSimulation zBase zTips noOverrides).years.get ⟨0, h1⟩ = zY0 := by
    rw [List.get_of_eq zb_years]
    rfl
  exact earlyExit_last_snapshot zBase zTips noOverrides 0 h1 (by rw [h2]; norm_num [zY0])

theorem liquidation_snapshot_spec_witness :
    zY0.totalAvailableIfSold =
      (if 0 < zY0.investPortfolioValue then
          zY0.investPortfolioValue * (1 - (mergeAssumptions noOverrides).effectiveCgtRate)
        else 0) + max 0 (zY0.ipValue * (1 - 0.03) - zY0.ipLoanBalance) := by
  have hmem : zY0 ∈ (runDebtProSimulation zBase zTips noOverrides).years := by
    rw [zb_years]
    exact List.mem_singleton_self _
  exact (liquidation_snapshot_spec zBase zTips noOverrides (by norm_num [zTips])
    (by norm_num [zTips]) zY0 hmem).1

theorem mortgage_stage_spec_witness :
    mortgageSpec zBase zTips zBase.netIncomeAnnual zBase.homeLoanBalance zY0 := by
  have h1 : 0 < (runDebtProSimulation zBase zTips noOverrides).years.length := by
    rw [zb_years]
    norm_num
  have h2 : (runDebtProSimulation zBase zTips noOverrides).years.get ⟨0, h1⟩ = zY0 := by
    rw [List.get_of_eq zb_years]
    rfl
  have h3 := (mortgage_stage_spec zBase zTips noOverrides).1 h1
  rwa [h2] at h3

theorem payoff_monotone_witness :
    0 < wBase.minRepaymentMonthly * 13 ∧ 0 ≤ wY0.homeLoanBalance := by
  refine ⟨by norm_num [wBase], ?_⟩
  have h1 : 0 < (runDebtProSimulation wBase zTips noOverrides).years.length := by
    rw [wb_years]
    norm_num
  have h2 : (runDebtProSimulation wBase zTips noOverrides).years.get ⟨0, h1⟩ = wY0 := by
    rw [List.get_of_eq wb_years]
    rfl
  have h3 := (payoff_monotone wBase zTips noOverrides (by norm_num [wBase])
    (by norm_num [wBase]) (by norm_num [wBase])).1 0 h1
  rwa [h2] at h3

theorem homeLoanBalance_nonneg_witness : 0 ≤ zY0.homeLoanBalance := by
  have hmem : zY0 ∈ (runDebtProSimulation zBase zTips noOverrides).years := by
    rw [zb_years]
    exact List.mem_singleton_self _
  exact homeLoanBalance_nonneg zBase zTips noOverrides
    (by norm_num [BaseInputsNonneg, zBase])
    (by norm_num [TipInputsNonneg, zTips])
    (by norm_num [AssumptionsNonneg, mergeAssumptions, noOverrides, DEFAULT_ASSUMPTIONS])
    zY0 hmem

theorem offsetBalance_constant_witness : oY0.offsetBalance = oBase.offsetBalance := by
  have hmem : oY0 ∈ (runDebtProSimulation oBase zTips noOverrides).years := by
    rw [ob_years]
    exact List.mem_singleton_self _
  exact offsetBalance_constant oBase zTips noOverrides oY0 hmem

theorem yearIndex_position_length_witness :
    (runDebtProSimulation zBase zTips negYearsOverride).years = [] ∧
      (runDebtProSimulation zBase zTips negYearsOverride).debtFreeYearIndex = none :=
  (yearIndex_position_length zBase zTips negYearsOverride).2.2
    (by norm_num [mergeAssumptions, negYearsOverride])

theorem scenC_recycling_from_acquisition_year_witness :
    0 < scY3.investmentLoanBalance ∧ 0 < scY3.investPortfolioValue := by
  have hmem : scY3 ∈ (runDebtProSimulation sbBase scTips noOverrides).years := by
    rw [sc_years]
    simp
  exact (scenC_recycling_from_acquisition_year.1 scY3 hmem).2 (by norm_num [scY3])

end DebtPro
